import Mathlib

/-!
Verification of the route-stats presentation core of `cli/cmd/routes.go`
(linkerd2 CLI `routes` command): request building with mutually exclusive
destination filters, response aggregation into a route table, route
ordering with the sentinel-last rule, and JSON rendering with explicit
null semantics.

Shallow embedding conventions:
* Go `map[string]*rowStats` is modelled as an association list with unique
  keys and in-place overwrite on insert; every use of the map in the
  source is order-independent (sorting, maximum, membership), so the list
  order carries no information.
* Go `float64` values are never computed with in this file's scope (they
  are produced by external collaborators and carried verbatim), so they
  are modelled as `Rat`; `uint64` latencies are carried verbatim and
  modelled as `Nat`.
* External collaborators (`util.GetRequestRate`, `util.GetSuccessRate`,
  `util.GetPercentTls`, `util.BuildResource`) are parameters of the
  embedded functions.
-/

namespace RoutesCmd

/-- `rowStats` (defined in `stat.go` of the same package, used by
`routes.go`): one aggregated row of the route table. -/
structure rowStats where
  dst : String
  requestRate : Rat
  successRate : Rat
  tlsPercent : Rat
  latencyP50 : Nat
  latencyP95 : Nat
  latencyP99 : Nat
deriving Repr, DecidableEq

/-- `pb.BasicStats`: the raw stats payload attached to a response row.
Only the three latency percentiles are read directly by `routes.go`; the
counters are consumed by the external metrics-derivation collaborators. -/
structure BasicStats where
  successCount : Nat
  failureCount : Nat
  tlsRequestCount : Nat
  latencyMsP50 : Nat
  latencyMsP95 : Nat
  latencyMsP99 : Nat
deriving Repr, DecidableEq

/-- One row of `pb.TopRoutesResponse.GetRoutes().Rows`: a route label, a
destination, a time window and an optional stats payload (`r.Stats` is a
pointer in Go; `none` models the nil pointer). -/
structure RouteTableRow where
  route : String
  dst : String
  timeWindow : String
  stats : Option BasicStats
deriving Repr, DecidableEq

/-- The aggregated table, Go `map[string]*rowStats`.  Keys are unique;
list order is irrelevant to every consumer in the source. -/
abbrev Table := List (String × rowStats)

/-- `const defaultRoute = "[UNKNOWN]"` -/
def defaultRoute : String := "[UNKNOWN]"

/-- Strict lexicographic comparison of character sequences, the order used
by Go's `sort.Strings` (Go compares the UTF-8 bytes; byte-wise order on
valid UTF-8 coincides with codepoint-wise order, which is what comparing
`Char`s gives). -/
def charListLt : List Char → List Char → Bool
  | _, [] => false
  | [], _ :: _ => true
  | a :: as, b :: bs => if a < b then true else if b < a then false else charListLt as bs

/-- Go's `a < b` on strings: byte-wise lexicographic. -/
def stringLtB (a b : String) : Bool := charListLt a.data b.data

/-- The non-strict order `sort.Strings` sorts by. -/
def stringLeB (a b : String) : Bool := !(stringLtB b a)

/-- One iteration of the loop: `key == ""` sets `hasDefaultRoute` and is
otherwise skipped; any other key is appended to `sortedRoutes` and bumps
`maxLength` when longer (`len` in Go measures UTF-8 bytes, here
`String.utf8ByteSize`). -/
def sortRoutesStep (acc : List String × Nat × Bool) (kv : String × rowStats) :
    List String × Nat × Bool :=
  if kv.1 = "" then (acc.1, acc.2.1, true)
  else (acc.1 ++ [kv.1],
        if kv.1.utf8ByteSize > acc.2.1 then kv.1.utf8ByteSize else acc.2.1,
        acc.2.2)

/-- The accumulating loop of `sortRoutes` (`routes.go:272-282`): iterate
over the map entries, skipping the empty key but recording its presence,
collecting every other key and tracking the byte length of the longest
key, starting from `len(defaultRoute)`. -/
def sortRoutesLoop (stats : Table) : List String × Nat × Bool :=
  stats.foldl sortRoutesStep ([], defaultRoute.utf8ByteSize, false)

/-- `sortRoutes` (`routes.go:269-288`): returns the sorted list of keys
(the empty key, when present, appended last) and the length of the
longest key, floored at `len("[UNKNOWN]")`.  `sort.Strings` is byte-wise
lexicographic ascending; on `String` that order coincides with the
codepoint-lexicographic `≤` because UTF-8 byte order preserves codepoint
order. -/
def sortRoutes (stats : Table) : List String × Nat :=
  let loop := sortRoutesLoop stats
  let sorted := loop.1.mergeSort stringLeB
  ((if loop.2.2 then sorted ++ [""] else sorted), loop.2.1)

/-! ### The executable string order agrees with the lexicographic order -/

theorem charListLt_iff : ∀ as bs : List Char, charListLt as bs = true ↔ List.Lex (· < ·) as bs
  | _, [] => by simp [charListLt]
  | [], _ :: _ => by simp [charListLt]; exact List.Lex.nil
  | a :: as, b :: bs => by
    simp only [charListLt]
    by_cases hab : a < b
    · simp [hab]; exact List.Lex.rel hab
    · by_cases hba : b < a
      · simp [hab, hba]
        intro h
        cases h with
        | cons h => exact absurd rfl (ne_of_gt hba)
        | rel h => exact absurd h hab
      · have heq : a = b := le_antisymm (not_lt.mp hba) (not_lt.mp hab)
        subst heq
        simp [hab, hba, charListLt_iff as bs]
        constructor
        · exact List.Lex.cons
        · intro h
          cases h with
          | cons h => exact h
          | rel h => exact absurd h hab

theorem stringLtB_iff (a b : String) : stringLtB a b = true ↔ a < b := by
  rw [String.lt_iff_toList_lt]
  exact charListLt_iff a.data b.data

theorem stringLeB_iff (a b : String) : stringLeB a b = true ↔ a ≤ b := by
  rw [stringLeB, ← not_lt, ← stringLtB_iff b a]
  simp

theorem stringLeB_trans (a b c : String) :
    stringLeB a b → stringLeB b c → stringLeB a c := by
  simpa [stringLeB_iff] using le_trans

theorem stringLeB_total (a b : String) : stringLeB a b || stringLeB b a := by
  rcases le_total a b with h | h <;> simp [stringLeB_iff, h]

/-! ### Characterization of the `sortRoutes` accumulation loop -/

theorem max_of_if_gt (m n : Nat) : (if n > m then n else m) = max m n := by
  split <;> omega

theorem sortRoutesLoop_go :
    ∀ (stats : Table) (rs : List String) (m : Nat) (hd : Bool),
    stats.foldl sortRoutesStep (rs, m, hd)
      = (rs ++ (stats.map Prod.fst).filter (fun k => !(k == "")),
         ((stats.map Prod.fst).filter (fun k => !(k == ""))).foldl
           (fun n k => max n k.utf8ByteSize) m,
         (hd || (stats.map Prod.fst).any (fun k => k == "")))
  | [], rs, m, hd => by simp
  | kv :: t, rs, m, hd => by
    by_cases h : kv.1 = ""
    · rw [List.foldl_cons, show sortRoutesStep (rs, m, hd) kv = (rs, m, true) by
        simp [sortRoutesStep, h]]
      rw [sortRoutesLoop_go t rs m true]
      simp [h]
    · have hb : (kv.1 == "") = false := by simpa using h
      rw [List.foldl_cons, show sortRoutesStep (rs, m, hd) kv
          = (rs ++ [kv.1], max m kv.1.utf8ByteSize, hd) by
        simp [sortRoutesStep, h, max_of_if_gt]]
      rw [sortRoutesLoop_go t (rs ++ [kv.1]) (max m kv.1.utf8ByteSize) hd]
      simp [hb, List.append_assoc]

/-- The loop collects the non-empty keys in order, folds `max` over their
byte lengths starting from `len("[UNKNOWN]")`, and records whether the
empty key occurred. -/
theorem sortRoutesLoop_eq (stats : Table) :
    sortRoutesLoop stats
      = ((stats.map Prod.fst).filter (fun k => !(k == "")),
         ((stats.map Prod.fst).filter (fun k => !(k == ""))).foldl
           (fun n k => max n k.utf8ByteSize) defaultRoute.utf8ByteSize,
         ((stats.map Prod.fst).any (fun k => k == ""))) := by
  simpa using sortRoutesLoop_go stats [] defaultRoute.utf8ByteSize false

/-! ### Folding `max` over a list -/

theorem foldl_max_le_init : ∀ (l : List Nat) (a : Nat), a ≤ l.foldl max a
  | [], _ => le_refl _
  | x :: t, a => le_trans (le_max_left a x) (foldl_max_le_init t (max a x))

theorem le_foldl_max : ∀ (l : List Nat) (a x : Nat), x ∈ l → x ≤ l.foldl max a
  | y :: t, a, x, h => by
    rcases List.mem_cons.mp h with rfl | h
    · exact le_trans (le_max_right a x) (foldl_max_le_init t (max a x))
    · exact le_foldl_max t (max a y) x h

theorem foldl_max_cases : ∀ (l : List Nat) (a : Nat), l.foldl max a = a ∨ l.foldl max a ∈ l
  | [], a => Or.inl rfl
  | x :: t, a => by
    rcases foldl_max_cases t (max a x) with h | h
    · rcases max_choice a x with hm | hm
      · exact Or.inl (by rw [List.foldl_cons, h, hm])
      · exact Or.inr (by rw [List.foldl_cons, h, hm]; exact List.mem_cons_self _ _)
    · exact Or.inr (List.mem_cons_of_mem _ h)

/-! ### The two components of `sortRoutes` -/

theorem sortRoutes_fst (stats : Table) :
    (sortRoutes stats).1
      = (if (stats.map Prod.fst).any (fun k => k == "") then
          (((stats.map Prod.fst).filter (fun k => !(k == ""))).mergeSort stringLeB) ++ [""]
        else ((stats.map Prod.fst).filter (fun k => !(k == ""))).mergeSort stringLeB) := by
  simp only [sortRoutes, sortRoutesLoop_eq]

theorem sortRoutes_snd (stats : Table) :
    (sortRoutes stats).2
      = (((stats.map Prod.fst).filter (fun k => !(k == ""))).map String.utf8ByteSize).foldl
          max defaultRoute.utf8ByteSize := by
  simp only [sortRoutes, sortRoutesLoop_eq, List.foldl_map]

/-! ### Ordering facts about the sorted key sequence, over an arbitrary key list -/

theorem mem_sortedKeys_ne {keys : List String} {x : String}
    (hx : x ∈ (keys.filter (fun k => !(k == ""))).mergeSort stringLeB) : x ≠ "" := by
  have hx' := List.mem_mergeSort.mp hx
  have := List.of_mem_filter hx'
  simpa using this

theorem sortedKeys_sorted_le (keys : List String) :
    ((keys.filter (fun k => !(k == ""))).mergeSort stringLeB).Sorted (· ≤ ·) := by
  have h := @List.sorted_mergeSort String stringLeB stringLeB_trans stringLeB_total
    (keys.filter (fun k => !(k == "")))
  exact h.imp (fun hab => (stringLeB_iff _ _).mp hab)

theorem sortedKeys_nodup {keys : List String} (hnd : keys.Nodup) :
    ((keys.filter (fun k => !(k == ""))).mergeSort stringLeB).Nodup :=
  (List.mergeSort_perm _ stringLeB).nodup_iff.mpr (hnd.filter _)

theorem seq_perm_keys (keys : List String) (hnd : keys.Nodup) :
    (if keys.any (fun k => k == "") then
       ((keys.filter (fun k => !(k == ""))).mergeSort stringLeB) ++ [""]
     else (keys.filter (fun k => !(k == ""))).mergeSort stringLeB).Perm keys := by
  by_cases hany : keys.any (fun k => k == "") = true
  · rw [if_pos hany]
    have hmem : "" ∈ keys := by
      rcases List.any_eq_true.mp hany with ⟨x, hx, hxe⟩
      rcases eq_of_beq hxe with rfl
      exact hx
    have hperm1 :
        (((keys.filter (fun k => !(k == ""))).mergeSort stringLeB) ++ [""]).Perm
          ((keys.filter (fun k => !(k == ""))) ++ [""]) :=
      (List.mergeSort_perm _ stringLeB).append_right _
    have hfilter2 : keys.filter (fun k => k == "") = [""] := by
      rw [List.filter_beq, List.count_eq_one_of_mem hnd hmem]
      simp
    have happ := List.filter_append_perm (fun k => !(k == "")) keys
    simp only [Bool.not_not] at happ
    rw [hfilter2] at happ
    exact hperm1.trans happ
  · rw [if_neg hany]
    have hall : keys.filter (fun k => !(k == "")) = keys := by
      refine List.filter_eq_self.mpr (fun a ha => ?_)
      have : a ≠ "" := fun hcon => hany (List.any_eq_true.mpr ⟨a, ha, by simp [hcon]⟩)
      simpa using this
    rw [hall]
    exact List.mergeSort_perm keys stringLeB

theorem seq_precedence (keys : List String) (hnd : keys.Nodup) :
    ∀ (i j : Nat) (a b : String),
      (if keys.any (fun k => k == "") then
          ((keys.filter (fun k => !(k == ""))).mergeSort stringLeB) ++ [""]
        else (keys.filter (fun k => !(k == ""))).mergeSort stringLeB).get? i = some a →
      (if keys.any (fun k => k == "") then
          ((keys.filter (fun k => !(k == ""))).mergeSort stringLeB) ++ [""]
        else (keys.filter (fun k => !(k == ""))).mergeSort stringLeB).get? j = some b →
      a ≠ "" → b ≠ "" → a < b → i < j := by
  have hlt : ((keys.filter (fun k => !(k == ""))).mergeSort stringLeB).Sorted (· < ·) :=
    (sortedKeys_sorted_le keys).lt_of_le (sortedKeys_nodup hnd)
  have hpg := List.pairwise_iff_getElem.mp hlt
  intro i j a b hga hgb hna hnb hab
  by_cases hany : keys.any (fun k => k == "") = true
  · rw [if_pos hany] at hga hgb
    rcases List.get?_eq_some.mp hga with ⟨hi, hga'⟩
    rcases List.get?_eq_some.mp hgb with ⟨hj, hgb'⟩
    simp only [List.get_eq_getElem] at hga' hgb'
    subst hga' hgb'
    have hilen := hi
    have hjlen := hj
    simp only [List.length_append, List.length_cons, List.length_nil] at hilen hjlen
    have hi' : i < ((keys.filter (fun k => !(k == ""))).mergeSort stringLeB).length := by
      rcases Nat.lt_or_ge i ((keys.filter (fun k => !(k == ""))).mergeSort stringLeB).length
        with h | h
      · exact h
      · exfalso
        have hieq : i = ((keys.filter (fun k => !(k == ""))).mergeSort stringLeB).length := by
          omega
        exact hna (List.getElem_concat_length _ _ _ hieq _)
    have hj' : j < ((keys.filter (fun k => !(k == ""))).mergeSort stringLeB).length := by
      rcases Nat.lt_or_ge j ((keys.filter (fun k => !(k == ""))).mergeSort stringLeB).length
        with h | h
      · exact h
      · exfalso
        have hjeq : j = ((keys.filter (fun k => !(k == ""))).mergeSort stringLeB).length := by
          omega
        exact hnb (List.getElem_concat_length _ _ _ hjeq _)
    rw [List.getElem_append_left hi', List.getElem_append_left hj'] at hab
    by_contra hcon
    rcases Nat.lt_or_ge j i with h | h
    · exact absurd hab (asymm (hpg j i hj' hi' h))
    · have : j = i := by omega
      subst this
      exact absurd hab (lt_irrefl _)
  · rw [if_neg hany] at hga hgb
    rcases List.get?_eq_some.mp hga with ⟨hi, hga'⟩
    rcases List.get?_eq_some.mp hgb with ⟨hj, hgb'⟩
    simp only [List.get_eq_getElem] at hga' hgb'
    subst hga' hgb'
    by_contra hcon
    rcases Nat.lt_or_ge j i with h | h
    · exact absurd hab (asymm (hpg j i hj hi h))
    · have : j = i := by omega
      subst this
      exact absurd hab (lt_irrefl _)

theorem seq_empty_last (keys : List String) (hmem : "" ∈ keys) :
    (if keys.any (fun k => k == "") then
       ((keys.filter (fun k => !(k == ""))).mergeSort stringLeB) ++ [""]
     else (keys.filter (fun k => !(k == ""))).mergeSort stringLeB).getLast? = some ""
    ∧ (if keys.any (fun k => k == "") then
       ((keys.filter (fun k => !(k == ""))).mergeSort stringLeB) ++ [""]
     else (keys.filter (fun k => !(k == ""))).mergeSort stringLeB).count "" = 1 := by
  have hany : keys.any (fun k => k == "") = true :=
    List.any_eq_true.mpr ⟨"", hmem, by simp⟩
  rw [if_pos hany]
  constructor
  · exact List.getLast?_concat _
  · rw [List.count_append]
    have h0 : ((keys.filter (fun k => !(k == ""))).mergeSort stringLeB).count "" = 0 :=
      List.count_eq_zero.mpr (fun hmem' => mem_sortedKeys_ne hmem' rfl)
    simp [h0]

/-- A concrete aggregated table used to instantiate hypotheses of the
claim theorems. -/
def sampleTable : Table :=
  [("/b", ⟨"svc-b", 1, 1, 1, 10, 20, 30⟩),
   ("", ⟨"svc-e", 2, 1, 0, 1, 2, 3⟩),
   ("/a", ⟨"svc-a", 3, 1, 1, 4, 5, 6⟩)]

/-- Claim C1: for every `RouteTable` whose keys are unique (a Go map),
the sequence returned by `sortRoutes` contains exactly the keys of the
table (a permutation); for any two non-empty labels in the sequence, the
lexicographically smaller one appears strictly earlier; and the empty
label, when present in the table, occurs exactly once, as the last
element of the sequence. -/
theorem sortRoutes_ordering_correct (stats : Table)
    (hnd : (stats.map Prod.fst).Nodup) :
    ((sortRoutes stats).1.Perm (stats.map Prod.fst))
    ∧ (∀ (i j : Nat) (a b : String),
        (sortRoutes stats).1.get? i = some a →
        (sortRoutes stats).1.get? j = some b →
        a ≠ "" → b ≠ "" → a < b → i < j)
    ∧ ("" ∈ stats.map Prod.fst →
        (sortRoutes stats).1.getLast? = some ""
        ∧ (sortRoutes stats).1.count "" = 1) := by
  have hfst := sortRoutes_fst stats
  refine ⟨?_, ?_, ?_⟩
  · rw [hfst]
    exact seq_perm_keys _ hnd
  · rw [hfst]
    exact seq_precedence _ hnd
  · rw [hfst]
    intro hmem
    exact seq_empty_last _ hmem

unseal List.merge List.mergeSort in
theorem sortRoutes_ordering_correct_witness :
    ((sampleTable.map Prod.fst).Nodup)
    ∧ (((sortRoutes sampleTable).1.Perm (sampleTable.map Prod.fst))
      ∧ (∀ (i j : Nat) (a b : String),
          (sortRoutes sampleTable).1.get? i = some a →
          (sortRoutes sampleTable).1.get? j = some b →
          a ≠ "" → b ≠ "" → a < b → i < j)
      ∧ ("" ∈ sampleTable.map Prod.fst →
          (sortRoutes sampleTable).1.getLast? = some ""
          ∧ (sortRoutes sampleTable).1.count "" = 1)) :=
  ⟨by decide, sortRoutes_ordering_correct sampleTable (by decide)⟩

/-- Claim C2: the width returned by `sortRoutes` equals the maximum of
`len("[UNKNOWN]")` and the byte length of the longest non-empty key: it
is at least `len("[UNKNOWN]")`, at least the length of every non-empty
key, attained by one of those candidates, and the empty label never
contributes its own (zero) length. -/
theorem sortRoutes_width_correct (stats : Table) :
    defaultRoute.utf8ByteSize ≤ (sortRoutes stats).2
    ∧ (∀ kv ∈ stats, kv.1 ≠ "" → kv.1.utf8ByteSize ≤ (sortRoutes stats).2)
    ∧ ((sortRoutes stats).2 = defaultRoute.utf8ByteSize
        ∨ ∃ kv ∈ stats, kv.1 ≠ "" ∧ (sortRoutes stats).2 = kv.1.utf8ByteSize)
    ∧ (∀ r : rowStats, (sortRoutes (("", r) :: stats)).2 = (sortRoutes stats).2) := by
  have hsnd := sortRoutes_snd stats
  refine ⟨?_, ?_, ?_, ?_⟩
  · rw [hsnd]
    exact foldl_max_le_init _ _
  · intro kv hkv hne
    rw [hsnd]
    apply le_foldl_max
    exact List.mem_map_of_mem _
      (List.mem_filter.mpr ⟨List.mem_map_of_mem Prod.fst hkv, by simpa using hne⟩)
  · rw [hsnd]
    rcases foldl_max_cases
        (((stats.map Prod.fst).filter (fun k => !(k == ""))).map String.utf8ByteSize)
        defaultRoute.utf8ByteSize with h | h
    · exact Or.inl h
    · right
      rcases List.mem_map.mp h with ⟨k, hk, hkEq⟩
      rcases List.mem_filter.mp hk with ⟨hkKeys, hkne⟩
      rcases List.mem_map.mp hkKeys with ⟨kv, hkv, rfl⟩
      exact ⟨kv, hkv, by simpa using hkne, hkEq.symm⟩
  · intro r
    rw [sortRoutes_snd, hsnd]
    simp

unseal List.merge List.mergeSort in
theorem sortRoutes_width_correct_witness :
    defaultRoute.utf8ByteSize ≤ (sortRoutes sampleTable).2
    ∧ (∀ kv ∈ sampleTable, kv.1 ≠ "" → kv.1.utf8ByteSize ≤ (sortRoutes sampleTable).2)
    ∧ ((sortRoutes sampleTable).2 = defaultRoute.utf8ByteSize
        ∨ ∃ kv ∈ sampleTable, kv.1 ≠ "" ∧ (sortRoutes sampleTable).2 = kv.1.utf8ByteSize)
    ∧ (∀ r : rowStats, (sortRoutes (("", r) :: sampleTable)).2 = (sortRoutes sampleTable).2) :=
  sortRoutes_width_correct sampleTable

/-! ### Response aggregation (`writeRouteStatsToBuffer`, `routes.go:106-121`) -/

/-- Go map assignment `table[k] = v`: replace the binding when the key is
present, otherwise add a new one. -/
def tableInsert : Table → String → rowStats → Table
  | [], k, v => [(k, v)]
  | kv :: t, k, v => if kv.1 = k then (k, v) :: t else kv :: tableInsert t k v

/-- Go map lookup `table[k]`: the value bound to `k`, when present
(keys are unique, so at most one binding matches). -/
def tableFind? : Table → String → Option rowStats
  | [], _ => none
  | kv :: t, k => if kv.1 = k then some kv.2 else tableFind? t k

/-- The `rowStats` value built from a response row `r` with stats payload
`s` (`routes.go:111-119`); the three rate/fraction derivations
(`util.GetRequestRate`, `util.GetSuccessRate`, `util.GetPercentTls`) are
external collaborators, passed in as `gr`, `gs`, `gt`. -/
def mkRowStats (gr : BasicStats → String → Rat) (gs gt : BasicStats → Rat)
    (r : RouteTableRow) (s : BasicStats) : rowStats :=
  { dst := r.dst
    requestRate := gr s r.timeWindow
    successRate := gs s
    tlsPercent := gt s
    latencyP50 := s.latencyMsP50
    latencyP95 := s.latencyMsP95
    latencyP99 := s.latencyMsP99 }

/-- One iteration of the aggregation loop: a row with a nil stats payload
leaves the table unchanged; every other row is written into the table
keyed by its route label. -/
def buildRouteTableStep (gr : BasicStats → String → Rat) (gs gt : BasicStats → Rat)
    (table : Table) (r : RouteTableRow) : Table :=
  match r.stats with
  | some s => tableInsert table r.route (mkRowStats gr gs gt r s)
  | none => table

/-- The aggregation loop of `writeRouteStatsToBuffer` (`routes.go:107-121`),
starting from the empty table (`make(map[string]*rowStats)`). -/
def buildRouteTable (gr : BasicStats → String → Rat) (gs gt : BasicStats → Rat)
    (rows : List RouteTableRow) : Table :=
  rows.foldl (buildRouteTableStep gr gs gt) []

/-! ### Key and lookup lemmas for the table operations -/

theorem tableInsert_keys : ∀ (t : Table) (k : String) (v : rowStats),
    (tableInsert t k v).map Prod.fst
      = if k ∈ t.map Prod.fst then t.map Prod.fst else t.map Prod.fst ++ [k]
  | [], k, v => by simp [tableInsert]
  | kv :: t, k, v => by
    by_cases h : kv.1 = k
    · simp [tableInsert, h]
    · have hne : k ∈ kv.1 :: t.map Prod.fst ↔ k ∈ t.map Prod.fst := by
        constructor
        · intro hm
          rcases List.mem_cons.mp hm with hm | hm
          · exact absurd hm.symm h
          · exact hm
        · exact List.mem_cons_of_mem _
      simp only [tableInsert, if_neg h, List.map_cons, tableInsert_keys t k v]
      by_cases hm : k ∈ t.map Prod.fst
      · simp [hm, hne]
      · simp [hm, hne]

theorem tableInsert_nodup {t : Table} (hnd : (t.map Prod.fst).Nodup)
    (k : String) (v : rowStats) : ((tableInsert t k v).map Prod.fst).Nodup := by
  rw [tableInsert_keys]
  by_cases hm : k ∈ t.map Prod.fst
  · simpa [hm] using hnd
  · rw [if_neg hm]
    refine List.Nodup.append hnd (List.nodup_singleton k) ?_
    simpa using hm

theorem tableFind?_insert : ∀ (t : Table) (k k' : String) (v : rowStats),
    tableFind? (tableInsert t k v) k'
      = if k' = k then some v else tableFind? t k'
  | [], k, k', v => by
    by_cases h : k' = k
    · simp [tableInsert, tableFind?, h]
    · have hks : ¬k = k' := fun hcon => h hcon.symm
      simp [tableInsert, tableFind?, h, hks]
  | kv :: t, k, k', v => by
    by_cases h : kv.1 = k
    · by_cases h' : k' = k
      · simp [tableInsert, tableFind?, h, h']
      · have hks : ¬k = k' := fun hcon => h' hcon.symm
        simp [tableInsert, tableFind?, h, h', hks]
    · by_cases h' : k' = k
      · subst h'
        simp [tableInsert, tableFind?, h, tableFind?_insert t k' k' v]
      · simp only [tableInsert, if_neg h, tableFind?]
        rw [tableFind?_insert t k k' v]
        by_cases h2 : kv.1 = k'
        · simp [h2, h']
        · simp [h2, h']

theorem tableInsert_mem_keys (t : Table) (k : String) (v : rowStats) (q : String) :
    q ∈ (tableInsert t k v).map Prod.fst ↔ q ∈ t.map Prod.fst ∨ q = k := by
  rw [tableInsert_keys]
  by_cases hm : k ∈ t.map Prod.fst
  · rw [if_pos hm]
    constructor
    · exact Or.inl
    · rintro (h | rfl)
      · exact h
      · exact hm
  · rw [if_neg hm]
    simp

theorem buildRouteTable_go_mem (gr : BasicStats → String → Rat) (gs gt : BasicStats → Rat) :
    ∀ (rows : List RouteTableRow) (t : Table) (k : String),
    (k ∈ (rows.foldl (buildRouteTableStep gr gs gt) t).map Prod.fst
      ↔ k ∈ t.map Prod.fst ∨ ∃ r ∈ rows, r.stats.isSome ∧ r.route = k)
  | [], t, k => by simp
  | r :: rows, t, k => by
    rw [List.foldl_cons, buildRouteTable_go_mem gr gs gt rows (buildRouteTableStep gr gs gt t r) k]
    cases hs : r.stats with
    | none =>
      simp only [buildRouteTableStep, hs, List.mem_cons]
      constructor
      · rintro (h | h)
        · exact Or.inl h
        · rcases h with ⟨x, hx, hsx, hrx⟩
          exact Or.inr ⟨x, Or.inr hx, hsx, hrx⟩
      · rintro (h | ⟨x, hx | hx, hsx, hrx⟩)
        · exact Or.inl h
        · subst hx
          rw [hs] at hsx
          exact absurd hsx (by simp)
        · exact Or.inr ⟨x, hx, hsx, hrx⟩
    | some s =>
      simp only [buildRouteTableStep, hs, tableInsert_mem_keys, List.mem_cons]
      constructor
      · rintro ((h | rfl) | h)
        · exact Or.inl h
        · exact Or.inr ⟨r, Or.inl rfl, by simp [hs]⟩
        · rcases h with ⟨x, hx, hsx, hrx⟩
          exact Or.inr ⟨x, Or.inr hx, hsx, hrx⟩
      · rintro (h | ⟨x, hx | hx, hsx, hrx⟩)
        · exact Or.inl (Or.inl h)
        · subst hx
          exact Or.inl (Or.inr hrx.symm)
        · exact Or.inr ⟨x, hx, hsx, hrx⟩

theorem buildRouteTable_go_nodup (gr : BasicStats → String → Rat) (gs gt : BasicStats → Rat) :
    ∀ (rows : List RouteTableRow) (t : Table), (t.map Prod.fst).Nodup →
    ((rows.foldl (buildRouteTableStep gr gs gt) t).map Prod.fst).Nodup
  | [], _, h => h
  | r :: rows, t, h => by
    rw [List.foldl_cons]
    apply buildRouteTable_go_nodup gr gs gt rows
    cases hs : r.stats with
    | none => simpa [buildRouteTableStep, hs] using h
    | some s =>
      simp only [buildRouteTableStep, hs]
      exact tableInsert_nodup h _ _

theorem buildRouteTable_go_find (gr : BasicStats → String → Rat) (gs gt : BasicStats → Rat) :
    ∀ (rows : List RouteTableRow) (t : Table) (k : String),
    tableFind? (rows.foldl (buildRouteTableStep gr gs gt) t) k
      = (match rows.reverse.find? (fun r => r.stats.isSome && r.route == k) with
         | some r => r.stats.map (mkRowStats gr gs gt r)
         | none => tableFind? t k)
  | [], t, k => by simp
  | r :: rows, t, k => by
    rw [List.foldl_cons, buildRouteTable_go_find gr gs gt rows (buildRouteTableStep gr gs gt t r) k]
    rw [List.reverse_cons, List.find?_append]
    cases hfind : rows.reverse.find? (fun r => r.stats.isSome && r.route == k) with
    | some r' => simp [Option.or]
    | none =>
      simp only [Option.none_or, List.find?_singleton]
      by_cases hp : (r.stats.isSome && r.route == k) = true
      · rw [if_pos hp]
        rcases Bool.and_eq_true_iff.mp hp with ⟨hsome, hroute⟩
        rcases Option.isSome_iff_exists.mp hsome with ⟨s, hs⟩
        have hk : r.route = k := by simpa using hroute
        simp [buildRouteTableStep, hs, tableFind?_insert, hk]
      · rw [if_neg hp]
        cases hs : r.stats with
        | none => simp [buildRouteTableStep, hs]
        | some s =>
          have hroute : ¬(r.route == k) = true := by
            intro hcon
            exact hp (by simp [hs, hcon])
          have hk : ¬(k = r.route) := by
            intro hcon
            exact hroute (by simp [hcon])
          simp [buildRouteTableStep, hs, tableFind?_insert, hk]

/-- Claim C3: a route label is a key of the aggregated table exactly when
some response row carries that label together with a non-nil stats
payload; rows with a nil payload contribute no entry. -/
theorem buildRouteTable_keys_iff (gr : BasicStats → String → Rat) (gs gt : BasicStats → Rat)
    (rows : List RouteTableRow) (k : String) :
    k ∈ (buildRouteTable gr gs gt rows).map Prod.fst
      ↔ ∃ r ∈ rows, r.stats.isSome ∧ r.route = k := by
  simpa [buildRouteTable] using buildRouteTable_go_mem gr gs gt rows [] k

/-- A trivial stand-in for the external metrics-derivation collaborators,
used to instantiate witnesses. -/
def zeroRate : BasicStats → String → Rat := fun _ _ => 0

/-- See `zeroRate`. -/
def zeroFrac : BasicStats → Rat := fun _ => 0

/-- A concrete response-row list with a stats-less row and a duplicated
route label, used to instantiate the aggregation witnesses. -/
def sampleRows : List RouteTableRow :=
  [{ route := "/a", dst := "webapp", timeWindow := "1m",
     stats := some ⟨10, 2, 5, 1, 2, 3⟩ },
   { route := "/b", dst := "webapp", timeWindow := "1m", stats := none },
   { route := "/a", dst := "webapp2", timeWindow := "1m",
     stats := some ⟨20, 0, 20, 4, 5, 6⟩ }]

theorem buildRouteTable_keys_iff_witness :
    "/a" ∈ (buildRouteTable zeroRate zeroFrac zeroFrac sampleRows).map Prod.fst
      ↔ ∃ r ∈ sampleRows, r.stats.isSome ∧ r.route = "/a" :=
  buildRouteTable_keys_iff zeroRate zeroFrac zeroFrac sampleRows "/a"

/-- Claim C10: looking up a label in the aggregated table yields the
value computed from the last response row with that label and a non-nil
stats payload (later rows overwrite earlier ones), and the table's keys
are unique. -/
theorem buildRouteTable_last_wins (gr : BasicStats → String → Rat) (gs gt : BasicStats → Rat)
    (rows : List RouteTableRow) (k : String) :
    (tableFind? (buildRouteTable gr gs gt rows) k
      = (match rows.reverse.find? (fun r => r.stats.isSome && r.route == k) with
         | some r => r.stats.map (mkRowStats gr gs gt r)
         | none => none))
    ∧ ((buildRouteTable gr gs gt rows).map Prod.fst).Nodup := by
  constructor
  · have h := buildRouteTable_go_find gr gs gt rows [] k
    simpa [buildRouteTable, tableFind?] using h
  · exact buildRouteTable_go_nodup gr gs gt rows [] (by simp)

theorem buildRouteTable_last_wins_witness :
    (tableFind? (buildRouteTable zeroRate zeroFrac zeroFrac sampleRows) "/a"
      = (match sampleRows.reverse.find? (fun r => r.stats.isSome && r.route == "/a") with
         | some r => r.stats.map (mkRowStats zeroRate zeroFrac zeroFrac r)
         | none => none))
    ∧ ((buildRouteTable zeroRate zeroFrac zeroFrac sampleRows).map Prod.fst).Nodup :=
  buildRouteTable_last_wins zeroRate zeroFrac zeroFrac sampleRows "/a"

/-! ### JSON rendering (`jsonRouteStats`, `printRouteJson`, `routes.go:176-216`) -/

/-- A scalar JSON value as emitted for the fields of `jsonRouteStats` by
`encoding/json`: `null` (a nil pointer field), a string, or a number. -/
inductive JVal where
  | null
  | str (s : String)
  | num (q : Rat)
deriving Repr, DecidableEq

/-- The Go struct `jsonRouteStats` (`routes.go:177-186`): `Route` and
`Service` are plain strings, every numeric field is a pointer so that a
nil pointer marshals as JSON `null`. -/
structure jsonRouteStats where
  Route : String
  Service : String
  Success : Option Rat
  Rps : Option Rat
  LatencyMSp50 : Option Nat
  LatencyMSp95 : Option Nat
  LatencyMSp99 : Option Nat
  Tls : Option Rat
deriving Repr, DecidableEq

def jvalOfOptRat : Option Rat → JVal
  | none => .null
  | some q => .num q

def jvalOfOptNat : Option Nat → JVal
  | none => .null
  | some n => .num (n : Rat)

/-- The (name, value) pairs `encoding/json` emits for one
`jsonRouteStats`: declaration order, names from the json tags, no field
ever omitted (no `omitempty`), nil pointers as `null`, the plain string
fields as strings. -/
def jsonRouteStats.fields (e : jsonRouteStats) : List (String × JVal) :=
  [("route", .str e.Route),
   ("service", .str e.Service),
   ("success", jvalOfOptRat e.Success),
   ("rps", jvalOfOptRat e.Rps),
   ("latency_ms_p50", jvalOfOptNat e.LatencyMSp50),
   ("latency_ms_p95", jvalOfOptNat e.LatencyMSp95),
   ("latency_ms_p99", jvalOfOptNat e.LatencyMSp99),
   ("tls", jvalOfOptRat e.Tls)]

/-- Rendering of one scalar.  `strQ` models `encoding/json`'s quoting and
escaping of a Go string (quotes included) and `numStr` its number
formatting; both are external stdlib behaviours none of the verified
claims depend on, so they are parameters. -/
def renderScalar (numStr : Rat → String) (strQ : String → String) : JVal → String
  | .null => "null"
  | .str s => strQ s
  | .num q => numStr q

/-- `json.MarshalIndent` of one `*jsonRouteStats` array element, at one
level of nesting with indent `"  "`. -/
def marshalEntry (numStr : Rat → String) (strQ : String → String) (e : jsonRouteStats) :
    String :=
  "\x7b\n"
  ++ String.intercalate ",\n"
      (e.fields.map (fun kv => "    " ++ strQ kv.1 ++ ": " ++ renderScalar numStr strQ kv.2))
  ++ "\n  \x7d"

/-- `json.MarshalIndent(entries, "", "  ")` for the slice: the empty
slice (never nil, `routes.go:190`) marshals as the literal `[]`; a
non-empty one as a bracketed, indented element list. -/
def marshalEntries (numStr : Rat → String) (strQ : String → String)
    (es : List jsonRouteStats) : String :=
  match es with
  | [] => "[]"
  | _ :: _ =>
    "[\n"
    ++ String.intercalate ",\n" (es.map (fun e => "  " ++ marshalEntry numStr strQ e))
    ++ "\n]"

/-- The body of the entry loop of `printRouteJson` (`routes.go:192-208`):
route label (empty shown as `"[UNKNOWN]"`, but the lookup still uses the
original label), and the row's values when the label is in the table
(`entry.Tls` re-reads `stats[route].tlsPercent`, hence the second
lookup). -/
def routeJsonEntry (stats : Table) (route : String) : jsonRouteStats :=
  let entry : jsonRouteStats :=
    { Route := route, Service := "", Success := none, Rps := none,
      LatencyMSp50 := none, LatencyMSp95 := none, LatencyMSp99 := none, Tls := none }
  let entry := if route = "" then { entry with Route := "[UNKNOWN]" } else entry
  match tableFind? stats route with
  | some row =>
    { entry with
      Service := row.dst
      Success := some row.successRate
      Rps := some row.requestRate
      LatencyMSp50 := some row.latencyP50
      LatencyMSp95 := some row.latencyP95
      LatencyMSp99 := some row.latencyP99
      Tls := (tableFind? stats route).map (fun r => r.tlsPercent) }
  | none => entry

/-- The entry loop of `printRouteJson`: one entry appended per element of
the sorted route sequence. -/
def routeJsonEntries (stats : Table) : List jsonRouteStats :=
  (sortRoutes stats).1.foldl (fun entries route => entries ++ [routeJsonEntry stats route]) []

/-- `printRouteJson` (`routes.go:188-216`): marshal the entries and write
them with a trailing newline (`Fprintf(w, "%s\n", b)`). -/
def printRouteJson (numStr : Rat → String) (strQ : String → String) (stats : Table) :
    String :=
  marshalEntries numStr strQ (routeJsonEntries stats) ++ "\n"

theorem foldl_append_eq_map {α β : Type} (f : α → β) :
    ∀ (l : List α) (acc : List β),
      l.foldl (fun es x => es ++ [f x]) acc = acc ++ l.map f
  | [], acc => by simp
  | x :: t, acc => by
    rw [List.foldl_cons, foldl_append_eq_map f t (acc ++ [f x])]
    simp

theorem routeJsonEntries_eq_map (stats : Table) :
    routeJsonEntries stats = (sortRoutes stats).1.map (routeJsonEntry stats) := by
  simpa [routeJsonEntries] using
    foldl_append_eq_map (routeJsonEntry stats) (sortRoutes stats).1 []

/-- A concrete stand-in for `encoding/json`'s number formatter, used only
to instantiate witnesses. -/
def sampleNumStr : Rat → String := fun q => toString q.num

/-- A concrete stand-in for `encoding/json`'s string quoter, used only to
instantiate witnesses. -/
def sampleStrQ : String → String := fun s => "\"" ++ s ++ "\""

/-- Claim C4: for the empty table the JSON renderer emits the literal
array text `[]` (plus the trailing newline of `Fprintf "%s\n"`), never
`null`; in general it emits exactly one object per element of the sorted
route sequence, in sequence order. -/
theorem printRouteJson_array_shape (numStr : Rat → String) (strQ : String → String)
    (stats : Table) :
    (stats = [] →
      marshalEntries numStr strQ (routeJsonEntries stats) = "[]"
      ∧ printRouteJson numStr strQ stats = "[]" ++ "\n")
    ∧ routeJsonEntries stats = (sortRoutes stats).1.map (routeJsonEntry stats)
    ∧ (routeJsonEntries stats).length = (sortRoutes stats).1.length := by
  refine ⟨?_, routeJsonEntries_eq_map stats, ?_⟩
  · rintro rfl
    have h : routeJsonEntries ([] : Table) = [] := by
      simp [routeJsonEntries, sortRoutes, sortRoutesLoop]
    refine ⟨by rw [h]; rfl, ?_⟩
    rw [printRouteJson, h]
    rfl
  · rw [routeJsonEntries_eq_map stats, List.length_map]

theorem printRouteJson_array_shape_witness :
    (marshalEntries sampleNumStr sampleStrQ (routeJsonEntries ([] : Table)) = "[]"
      ∧ printRouteJson sampleNumStr sampleStrQ ([] : Table) = "[]" ++ "\n")
    ∧ routeJsonEntries ([] : Table)
        = (sortRoutes ([] : Table)).1.map (routeJsonEntry ([] : Table))
    ∧ (routeJsonEntries ([] : Table)).length = (sortRoutes ([] : Table)).1.length := by
  have h := printRouteJson_array_shape sampleNumStr sampleStrQ ([] : Table)
  exact ⟨h.1 rfl, h.2⟩

/-- Counterexample to Claim C5 as stated: for a sequence entry whose key
is absent from the table, the `service` field of the emitted object is
the empty string — the zero value of the non-pointer Go `string` field —
and not an explicit JSON `null`, so not every field except `route` is
null. -/
theorem routeJsonEntry_service_not_null :
    tableFind? ([] : Table) "/a" = none
    ∧ (routeJsonEntry ([] : Table) "/a").fields.lookup "service" = some (JVal.str "")
    ∧ JVal.str "" ≠ JVal.null := by
  refine ⟨rfl, rfl, ?_⟩
  decide

/-- Claim C5 (amended): for a sequence entry whose key is absent from the
table, every field except `route` and `service` is an explicit JSON
`null` (none omitted); `service`, a non-pointer string, is emitted as the
empty string.  For an entry whose key is present all numeric fields carry
the row's values and are non-null. -/
theorem routeJsonEntry_null_semantics (stats : Table) (route : String) :
    (tableFind? stats route = none →
      (routeJsonEntry stats route).fields
        = [("route", .str (if route = "" then "[UNKNOWN]" else route)),
           ("service", .str ""),
           ("success", .null),
           ("rps", .null),
           ("latency_ms_p50", .null),
           ("latency_ms_p95", .null),
           ("latency_ms_p99", .null),
           ("tls", .null)])
    ∧ (∀ row : rowStats, tableFind? stats route = some row →
      (routeJsonEntry stats route).fields
        = [("route", .str (if route = "" then "[UNKNOWN]" else route)),
           ("service", .str row.dst),
           ("success", .num row.successRate),
           ("rps", .num row.requestRate),
           ("latency_ms_p50", .num (row.latencyP50 : Rat)),
           ("latency_ms_p95", .num (row.latencyP95 : Rat)),
           ("latency_ms_p99", .num (row.latencyP99 : Rat)),
           ("tls", .num row.tlsPercent)]) := by
  constructor
  · intro hnone
    by_cases hr : route = ""
    · subst hr
      simp [routeJsonEntry, hnone, jsonRouteStats.fields, jvalOfOptRat, jvalOfOptNat]
    · simp [routeJsonEntry, hnone, hr, jsonRouteStats.fields, jvalOfOptRat, jvalOfOptNat]
  · intro row hrow
    by_cases hr : route = ""
    · subst hr
      simp [routeJsonEntry, hrow, jsonRouteStats.fields, jvalOfOptRat, jvalOfOptNat]
    · simp [routeJsonEntry, hrow, hr, jsonRouteStats.fields, jvalOfOptRat, jvalOfOptNat]

theorem routeJsonEntry_null_semantics_witness :
    (routeJsonEntry sampleTable "/nope").fields
      = [("route", .str (if "/nope" = "" then "[UNKNOWN]" else "/nope")),
         ("service", .str ""),
         ("success", .null),
         ("rps", .null),
         ("latency_ms_p50", .null),
         ("latency_ms_p95", .null),
         ("latency_ms_p99", .null),
         ("tls", .null)] :=
  (routeJsonEntry_null_semantics sampleTable "/nope").1 rfl

/-! ### Request building (`buildTopRoutesRequest`, `routes.go:218-266`) -/

/-- The error kinds surfaced by the request builder (spec section 7).
The conflict errors carry the exact message text of the `errors.New`
calls in `routes.go:249,255`; errors of external collaborators are
opaque. -/
inductive CmdError where
  | invalidOutputFormat (format : String)
  | conflictingDestinationFilter (msg : String)
  | externalError (msg : String)
deriving Repr, DecidableEq

/-- The fields of `statOptionsBase` (declared in `stat.go` of the same
package) read by `routes.go`. -/
structure statOptionsBase where
  «namespace» : String
  timeWindow : String
  outputFormat : String
deriving Repr, DecidableEq

/-- `routesOptions` (`routes.go:21-27`). -/
structure routesOptions extends statOptionsBase where
  toService : String
  toServiceNamespace : String
  toAll : Bool
  toExternal : String
deriving Repr, DecidableEq

/-- Modelled from the spec: `statOptionsBase.validateOutputFormat` lives
in `stat.go`, which is not among the examined sources.  Spec: "Validates
the requested output format is one of the supported set (table, json, or
empty meaning table); unsupported values fail with
`InvalidOutputFormat`." -/
def statOptionsBase.validateOutputFormat (o : statOptionsBase) : Option CmdError :=
  if o.outputFormat = "table" ∨ o.outputFormat = "json" ∨ o.outputFormat = "" then none
  else some (.invalidOutputFormat o.outputFormat)

/-- The (namespace, type, name) triple produced by the external
resource-resolution collaborator `util.BuildResource`. -/
structure Resource where
  «namespace» : String
  type : String
  name : String
deriving Repr, DecidableEq

/-- `util.StatsBaseRequestParams` as filled in at `routes.go:230-235`. -/
structure StatsBaseRequestParams where
  timeWindow : String
  resourceName : String
  resourceType : String
  «namespace» : String
deriving Repr, DecidableEq

/-- `util.TopRoutesRequestParams`; `toService` and `toAll` start at their
zero values and are only set by the explicit assignments at
`routes.go:258-263`. -/
structure TopRoutesRequestParams extends StatsBaseRequestParams where
  toService : String := ""
  toAll : Bool := false
deriving Repr, DecidableEq

/-- The destination-filter-relevant shape of `pb.TopRoutesRequest`. -/
structure TopRoutesRequest where
  timeWindow : String
  resourceName : String
  resourceType : String
  «namespace» : String
  toService : String
  toAll : Bool
deriving Repr, DecidableEq

/-- Modelled from the spec: `util.BuildTopRoutesRequest` (in
`controller/api/util`) is not among the examined sources.  Spec: "On
success, produces a StatsFilter carrying whichever single
destination-filter mode was selected (none, to-service, to-external, or
to-all)" — the request carries the params' fields. -/
def buildTopRoutesRequestFromParams (p : TopRoutesRequestParams) : TopRoutesRequest :=
  { timeWindow := p.timeWindow
    resourceName := p.resourceName
    resourceType := p.resourceType
    «namespace» := p.«namespace»
    toService := p.toService
    toAll := p.toAll }

/-- `buildTopRoutesRequest` (`routes.go:218-266`).  The external resource
resolution `util.BuildResource(options.namespace, resource)` is the
parameter `buildResource`. -/
def buildTopRoutesRequest (buildResource : String → String → Except CmdError Resource)
    (resource : String) (options : routesOptions) : Except CmdError TopRoutesRequest :=
  match options.tostatOptionsBase.validateOutputFormat with
  | some e => .error e
  | none =>
    match buildResource options.«namespace» resource with
    | .error e => .error e
    | .ok target =>
      let requestParams : TopRoutesRequestParams :=
        { timeWindow := options.timeWindow
          resourceName := target.name
          resourceType := target.type
          «namespace» := options.«namespace» }
      let toService :=
        if options.toService ≠ "" then
          let toNamespace :=
            if options.toServiceNamespace = "" then options.«namespace»
            else options.toServiceNamespace
          options.toService ++ "." ++ toNamespace ++ ".svc.cluster.local"
        else ""
      if options.toExternal ≠ "" ∧ toService ≠ "" then
        .error (.conflictingDestinationFilter
          "\"--to-external\" and \"--to-service\" are mutually exclusive")
      else
        let toService := if options.toExternal ≠ "" then options.toExternal else toService
        if toService ≠ "" ∧ options.toAll then
          .error (.conflictingDestinationFilter
            "\"--to-all\" cannot be used with \"--to-service\" or \"--to-external\"")
        else
          let requestParams :=
            { requestParams with
              toService := if toService ≠ "" then toService else requestParams.toService
              toAll := if options.toAll then true else requestParams.toAll }
          .ok (buildTopRoutesRequestFromParams requestParams)

theorem string_append_ne_empty (a b : String) (hb : b.length ≠ 0) : a ++ b ≠ "" := by
  intro h
  have hlen := congrArg String.length h
  simp only [String.length_append] at hlen
  have hz : String.length "" = 0 := rfl
  omega

/-- Claim C8: an output format other than `table`, `json` or the empty
string makes the builder fail with `InvalidOutputFormat`, whatever the
resource-resolution collaborator would do — so resolution is never
consulted and no request value is produced. -/
theorem buildTopRoutesRequest_invalid_format
    (buildResource : String → String → Except CmdError Resource)
    (resource : String) (options : routesOptions)
    (h : options.outputFormat ≠ "table" ∧ options.outputFormat ≠ "json"
      ∧ options.outputFormat ≠ "") :
    buildTopRoutesRequest buildResource resource options
      = .error (.invalidOutputFormat options.outputFormat) := by
  have hv : options.tostatOptionsBase.validateOutputFormat
      = some (.invalidOutputFormat options.outputFormat) := by
    simp [statOptionsBase.validateOutputFormat, h.1, h.2.1, h.2.2]
  simp [buildTopRoutesRequest, hv]

/-- A concrete options value with conflicting `--to-service` and
`--to-external`, used to instantiate witnesses. -/
def sampleConflictOptions : routesOptions :=
  { «namespace» := "emojivoto"
    timeWindow := "1m"
    outputFormat := "table"
    toService := "webapp"
    toServiceNamespace := ""
    toAll := false
    toExternal := "example.com" }

/-- A resource-resolution collaborator that always succeeds, used to
instantiate witnesses. -/
def sampleBuildResource : String → String → Except CmdError Resource :=
  fun ns name => .ok { «namespace» := ns, type := "deployment", name := name }

theorem buildTopRoutesRequest_invalid_format_witness :
    ({ sampleConflictOptions with outputFormat := "yaml" }.outputFormat ≠ "table"
      ∧ { sampleConflictOptions with outputFormat := "yaml" }.outputFormat ≠ "json"
      ∧ { sampleConflictOptions with outputFormat := "yaml" }.outputFormat ≠ "")
    ∧ buildTopRoutesRequest sampleBuildResource "deploy/traffic"
        { sampleConflictOptions with outputFormat := "yaml" }
      = .error (.invalidOutputFormat
          { sampleConflictOptions with outputFormat := "yaml" }.outputFormat) :=
  ⟨by decide,
   buildTopRoutesRequest_invalid_format sampleBuildResource "deploy/traffic"
     { sampleConflictOptions with outputFormat := "yaml" } (by decide)⟩

/-- Claim C6: with a valid output format and a resolvable target, the
builder fails with the mutual-exclusion error whenever both `--to-service`
(after qualification) and `--to-external` are set; it fails with a
`ConflictingDestinationFilter` error whenever `--to-all` is combined with
either of them (with the `--to-all` message when only one of them is
set); and a successfully produced request never carries both a
destination service and the to-all flag. -/
theorem buildTopRoutesRequest_filter_conflicts
    (buildResource : String → String → Except CmdError Resource)
    (resource : String) (options : routesOptions) (target : Resource)
    (hfmt : options.tostatOptionsBase.validateOutputFormat = none)
    (htgt : buildResource options.«namespace» resource = .ok target) :
    (options.toService ≠ "" ∧ options.toExternal ≠ "" →
      buildTopRoutesRequest buildResource resource options
        = .error (.conflictingDestinationFilter
            "\"--to-external\" and \"--to-service\" are mutually exclusive"))
    ∧ (options.toAll = true ∧ (options.toService ≠ "" ∨ options.toExternal ≠ "") →
        ∃ m, buildTopRoutesRequest buildResource resource options
          = .error (.conflictingDestinationFilter m))
    ∧ (options.toAll = true ∧ ¬(options.toService ≠ "" ∧ options.toExternal ≠ "")
        ∧ (options.toService ≠ "" ∨ options.toExternal ≠ "") →
        buildTopRoutesRequest buildResource resource options
          = .error (.conflictingDestinationFilter
              "\"--to-all\" cannot be used with \"--to-service\" or \"--to-external\""))
    ∧ (∀ req, buildTopRoutesRequest buildResource resource options = .ok req →
        ¬(req.toService ≠ "" ∧ req.toAll = true)) := by
  have hq : ∀ ns : String,
      options.toService ++ "." ++ ns ++ ".svc.cluster.local" ≠ "" :=
    fun ns => string_append_ne_empty _ _ (by decide)
  refine ⟨?_, ?_, ?_, ?_⟩
  · rintro ⟨h1, h2⟩
    simp [buildTopRoutesRequest, hfmt, htgt, h1, h2, hq]
  · rintro ⟨ha, hone⟩
    by_cases hboth : options.toService ≠ "" ∧ options.toExternal ≠ ""
    · exact ⟨"\"--to-external\" and \"--to-service\" are mutually exclusive",
        by simp [buildTopRoutesRequest, hfmt, htgt, hboth.1, hboth.2, hq]⟩
    · rcases hone with h1 | h2
      · have he : options.toExternal = "" := by
          by_contra hcon
          exact hboth ⟨h1, hcon⟩
        exact ⟨"\"--to-all\" cannot be used with \"--to-service\" or \"--to-external\"",
          by simp [buildTopRoutesRequest, hfmt, htgt, h1, he, ha, hq]⟩
      · by_cases hs : options.toService = ""
        · exact ⟨"\"--to-all\" cannot be used with \"--to-service\" or \"--to-external\"",
            by simp [buildTopRoutesRequest, hfmt, htgt, hs, h2, ha, hq]⟩
        · exact ⟨"\"--to-external\" and \"--to-service\" are mutually exclusive",
            by simp [buildTopRoutesRequest, hfmt, htgt, hs, h2, hq]⟩
  · rintro ⟨ha, hnotboth, hone⟩
    rcases hone with h1 | h2
    · have he : options.toExternal = "" := by
        by_contra hcon
        exact hnotboth ⟨h1, hcon⟩
      simp [buildTopRoutesRequest, hfmt, htgt, h1, he, ha, hq]
    · have hs : options.toService = "" := by
        by_contra hcon
        exact hnotboth ⟨hcon, h2⟩
      simp [buildTopRoutesRequest, hfmt, htgt, hs, h2, ha, hq]
  · intro req hreq hcon
    by_cases hs : options.toService = "" <;> by_cases he : options.toExternal = "" <;>
      by_cases ha : options.toAll = true
    · simp [buildTopRoutesRequest, hfmt, htgt, hs, he, ha,
        buildTopRoutesRequestFromParams] at hreq
      rcases hreq with rfl
      exact hcon.1 rfl
    · simp [buildTopRoutesRequest, hfmt, htgt, hs, he, ha,
        buildTopRoutesRequestFromParams] at hreq
      rcases hreq with rfl
      simp at hcon
    · simp [buildTopRoutesRequest, hfmt, htgt, hs, he, ha, hq] at hreq
    · simp [buildTopRoutesRequest, hfmt, htgt, hs, he, ha, hq,
        buildTopRoutesRequestFromParams] at hreq
      rcases hreq with rfl
      simp at hcon
    · simp [buildTopRoutesRequest, hfmt, htgt, hs, he, ha, hq] at hreq
    · simp [buildTopRoutesRequest, hfmt, htgt, hs, he, ha, hq,
        buildTopRoutesRequestFromParams] at hreq
      rcases hreq with rfl
      simp at hcon
    · simp [buildTopRoutesRequest, hfmt, htgt, hs, he, ha, hq] at hreq
    · simp [buildTopRoutesRequest, hfmt, htgt, hs, he, ha, hq] at hreq

theorem buildTopRoutesRequest_filter_conflicts_witness :
    (sampleConflictOptions.tostatOptionsBase.validateOutputFormat = none
      ∧ sampleBuildResource sampleConflictOptions.«namespace» "deploy/traffic"
          = .ok { «namespace» := "emojivoto", type := "deployment", name := "deploy/traffic" })
    ∧ ((sampleConflictOptions.toService ≠ "" ∧ sampleConflictOptions.toExternal ≠ "" →
        buildTopRoutesRequest sampleBuildResource "deploy/traffic" sampleConflictOptions
          = .error (.conflictingDestinationFilter
              "\"--to-external\" and \"--to-service\" are mutually exclusive"))
      ∧ (sampleConflictOptions.toAll = true
          ∧ (sampleConflictOptions.toService ≠ "" ∨ sampleConflictOptions.toExternal ≠ "") →
          ∃ m, buildTopRoutesRequest sampleBuildResource "deploy/traffic" sampleConflictOptions
            = .error (.conflictingDestinationFilter m))
      ∧ (sampleConflictOptions.toAll = true
          ∧ ¬(sampleConflictOptions.toService ≠ "" ∧ sampleConflictOptions.toExternal ≠ "")
          ∧ (sampleConflictOptions.toService ≠ "" ∨ sampleConflictOptions.toExternal ≠ "") →
          buildTopRoutesRequest sampleBuildResource "deploy/traffic" sampleConflictOptions
            = .error (.conflictingDestinationFilter
                "\"--to-all\" cannot be used with \"--to-service\" or \"--to-external\""))
      ∧ (∀ req,
          buildTopRoutesRequest sampleBuildResource "deploy/traffic" sampleConflictOptions
            = .ok req → ¬(req.toService ≠ "" ∧ req.toAll = true))) :=
  ⟨⟨rfl, rfl⟩,
   buildTopRoutesRequest_filter_conflicts sampleBuildResource "deploy/traffic"
     sampleConflictOptions (⟨"emojivoto", "deployment", "deploy/traffic"⟩ : Resource)
     rfl rfl⟩

/-- Claim C7: a non-empty `--to-service` is qualified to
`<svc>.<ns>.svc.cluster.local`, where `<ns>` is the explicit
`--to-service-namespace` when non-empty and otherwise the `--namespace`
of the invocation; with no other destination filter the builder succeeds
and the request carries exactly that qualified name. -/
theorem buildTopRoutesRequest_qualifies
    (buildResource : String → String → Except CmdError Resource)
    (resource : String) (options : routesOptions) (target : Resource)
    (hfmt : options.tostatOptionsBase.validateOutputFormat = none)
    (htgt : buildResource options.«namespace» resource = .ok target)
    (hts : options.toService ≠ "") :
    (∀ req, buildTopRoutesRequest buildResource resource options = .ok req →
      req.toService
        = options.toService ++ "."
          ++ (if options.toServiceNamespace = "" then options.«namespace»
              else options.toServiceNamespace)
          ++ ".svc.cluster.local")
    ∧ (options.toExternal = "" → options.toAll = false →
        buildTopRoutesRequest buildResource resource options
          = .ok { timeWindow := options.timeWindow
                  resourceName := target.name
                  resourceType := target.type
                  «namespace» := options.«namespace»
                  toService := options.toService ++ "."
                    ++ (if options.toServiceNamespace = "" then options.«namespace»
                        else options.toServiceNamespace)
                    ++ ".svc.cluster.local"
                  toAll := false }) := by
  have hq : ∀ ns : String,
      options.toService ++ "." ++ ns ++ ".svc.cluster.local" ≠ "" :=
    fun ns => string_append_ne_empty _ _ (by decide)
  constructor
  · intro req hreq
    by_cases he : options.toExternal = ""
    · by_cases ha : options.toAll = true
      · simp [buildTopRoutesRequest, hfmt, htgt, hts, he, ha, hq] at hreq
      · simp [buildTopRoutesRequest, hfmt, htgt, hts, he, ha, hq,
          buildTopRoutesRequestFromParams] at hreq
        rcases hreq with rfl
        simp [hq]
    · simp [buildTopRoutesRequest, hfmt, htgt, hts, he, hq] at hreq
  · intro he hafalse
    simp [buildTopRoutesRequest, hfmt, htgt, hts, he, hafalse, hq,
      buildTopRoutesRequestFromParams]

/-- A concrete options value with only `--to-service` set, used to
instantiate the qualification witness. -/
def sampleToServiceOptions : routesOptions :=
  { «namespace» := "emojivoto"
    timeWindow := "1m"
    outputFormat := ""
    toService := "webapp"
    toServiceNamespace := ""
    toAll := false
    toExternal := "" }

theorem buildTopRoutesRequest_qualifies_witness :
    buildTopRoutesRequest sampleBuildResource "deploy/traffic" sampleToServiceOptions
      = .ok { timeWindow := "1m"
              resourceName := "deploy/traffic"
              resourceType := "deployment"
              «namespace» := "emojivoto"
              toService := "webapp.emojivoto.svc.cluster.local"
              toAll := false } := by
  have h := (buildTopRoutesRequest_qualifies sampleBuildResource "deploy/traffic"
    sampleToServiceOptions
    { «namespace» := "emojivoto", type := "deployment", name := "deploy/traffic" }
    rfl rfl (by decide)).2 rfl rfl
  exact h

/-! ### Output dispatch of `writeRouteStatsToBuffer` (`routes.go:123-132`) -/

/-- The observable actions `writeRouteStatsToBuffer` performs after
aggregation: a line on stderr (`fmt.Fprintln(os.Stderr, ...)`), process
termination (`os.Exit`), or an invocation of one of the two renderers on
the aggregated table. -/
inductive OutputEvent where
  | stderrLine (s : String)
  | exitProcess (code : Nat)
  | renderTable (table : Table)
  | renderJson (table : Table)
deriving Repr, DecidableEq

/-- The diagnostic printed at `routes.go:126`, verbatim. -/
def noTrafficMsg : String :=
  "No traffic found.  Does the service have a service profile?  You can create one with the `linkerd profile` command."

/-- The dispatch part of `writeRouteStatsToBuffer` (`routes.go:123-132`)
as the sequence of observable actions: in table mode an empty table
prints the diagnostic to stderr and exits with code 0 (so the renderer is
never invoked); otherwise the matching renderer runs on the table; an
unknown format (unreachable after validation) matches no `switch` case
and does nothing. -/
def writeRouteStatsToBuffer (gr : BasicStats → String → Rat) (gs gt : BasicStats → Rat)
    (rows : List RouteTableRow) (options : routesOptions) : List OutputEvent :=
  let table := buildRouteTable gr gs gt rows
  if options.outputFormat = "table" ∨ options.outputFormat = "" then
    if table.length = 0 then
      [.stderrLine noTrafficMsg, .exitProcess 0]
    else
      [.renderTable table]
  else if options.outputFormat = "json" then
    [.renderJson table]
  else
    []

/-- A concrete table-mode options value, used by the empty-table
diagnostic theorems. -/
def sampleTableModeOptions : routesOptions :=
  { «namespace» := "emojivoto", timeWindow := "1m", outputFormat := "table",
    toService := "", toServiceNamespace := "", toAll := false, toExternal := "" }

/-- Counterexample to Claim C9 as stated: the diagnostic actually written
is not the string quoted in the claim — the source text has two spaces
after each sentence and a third sentence about `linkerd profile`. -/
theorem writeRouteStats_msg_counterexample :
    writeRouteStatsToBuffer zeroRate zeroFrac zeroFrac [] sampleTableModeOptions
      = [.stderrLine noTrafficMsg, .exitProcess 0]
    ∧ noTrafficMsg ≠ "No traffic found. Does the service have a service profile?" := by
  constructor
  · rfl
  · decide

/-- Claim C9 (amended): in table mode (`"table"` or the empty format),
when the aggregated table is empty the command writes the fixed
diagnostic `noTrafficMsg` (the source text, with its double spacing and
its trailing `linkerd profile` hint) to stderr and exits successfully
with code 0; no renderer is invoked. -/
theorem writeRouteStats_empty_diag (gr : BasicStats → String → Rat) (gs gt : BasicStats → Rat)
    (rows : List RouteTableRow) (options : routesOptions)
    (hfmt : options.outputFormat = "table" ∨ options.outputFormat = "")
    (hempty : buildRouteTable gr gs gt rows = []) :
    writeRouteStatsToBuffer gr gs gt rows options
      = [.stderrLine noTrafficMsg, .exitProcess 0]
    ∧ (∀ t : Table, OutputEvent.renderTable t ∉ writeRouteStatsToBuffer gr gs gt rows options)
    ∧ (∀ t : Table, OutputEvent.renderJson t ∉ writeRouteStatsToBuffer gr gs gt rows options) := by
  have hw : writeRouteStatsToBuffer gr gs gt rows options
      = [.stderrLine noTrafficMsg, .exitProcess 0] := by
    rcases hfmt with h | h <;> simp [writeRouteStatsToBuffer, h, hempty]
  refine ⟨hw, ?_, ?_⟩
  · intro t
    rw [hw]
    simp
  · intro t
    rw [hw]
    simp

theorem writeRouteStats_empty_diag_witness :
    (sampleTableModeOptions.outputFormat = "table"
      ∨ sampleTableModeOptions.outputFormat = "")
    ∧ buildRouteTable zeroRate zeroFrac zeroFrac [] = []
    ∧ (writeRouteStatsToBuffer zeroRate zeroFrac zeroFrac [] sampleTableModeOptions
        = [.stderrLine noTrafficMsg, .exitProcess 0]
      ∧ (∀ t : Table, OutputEvent.renderTable t
          ∉ writeRouteStatsToBuffer zeroRate zeroFrac zeroFrac [] sampleTableModeOptions)
      ∧ (∀ t : Table, OutputEvent.renderJson t
          ∉ writeRouteStatsToBuffer zeroRate zeroFrac zeroFrac [] sampleTableModeOptions)) :=
  ⟨Or.inl rfl, rfl,
   writeRouteStats_empty_diag zeroRate zeroFrac zeroFrac [] sampleTableModeOptions
     (Or.inl rfl) rfl⟩

end RoutesCmd
